import Mathlib

/-!
Verification development for the ENSO metrics library.

Shallow embedding of `lib/EnsoMetricsLib.py` (metric functions and the
`ComputeMetric` dispatcher) and `lib/EnsoCollectionsLib.py` (the collection,
observation and region registries).  Scalars are modelled as exact rationals;
time/lat/lon fields are modelled by their spatially averaged time series
(`List ℚ`), which carries the only attribute the embedded code inspects
(`shape[0]`, the time-axis length).  External collaborators (file reading,
regridding, the statistics kernels of `EnsoToolsLib`) are abstracted as
parameters, following the spec, which places them outside the core.
Fallible Python code is embedded with `Except`: an uncaught Python exception
becomes an `Except.error`.
-/

namespace Enso

/-- Python runtime exceptions that the embedded code can raise, together with
the exception classes named by the specification's error taxonomy
(`NumericError`, `DataAlignmentError`, `ConfigurationError`).  The latter three
constructors exist so that statements can compare what the code actually raises
against what the specification names; no code path in the sources constructs
them. -/
inductive PyError where
  | zeroDivisionError
  | nameError
  | keyError (key : String)
  | typeError
  | numericError
  | dataAlignmentError
  | configurationError
deriving DecidableEq, Repr

/-- numpy.square, imported as NUMPYsquare in EnsoMetricsLib.py. -/
def NUMPYsquare (x : ℚ) : ℚ := x * x

/-- Scalar division as written in ComputeMetric.  A zero denominator is
modelled as Python float division, which raises ZeroDivisionError.  (With numpy
operands the quotient would instead be a silent non-finite value; under neither
semantics is any exception of the specification's taxonomy raised.) -/
def pydiv (a b : ℚ) : Except PyError ℚ :=
  if b = 0 then .error .zeroDivisionError else .ok (a / b)

/-- The per-side dictionary produced by a metric function, as consumed by the
normalization step of ComputeMetric: `value`, `value_error`, and the optional
nonlinearity channel `(nonlinearity, nonlinearity_error)` that only the
two-field regression metrics populate. -/
structure SideResult where
  value : ℚ
  value_error : ℚ
  nonlinearity : Option (ℚ × ℚ)
deriving DecidableEq, Repr

/-- Numeric fields that the `metric_val` dictionary literal of ComputeMetric
(EnsoMetricsLib.py lines 631-638) is written to hold for the ratio-normalized
categories.  The dictionary is in fact never created: its entries evaluate in
order and the entry `'nyears_model': metric['nyears_model']` (line 634)
indexes the metric-name string with a string key, a TypeError, so evaluation
of the literal aborts first.  The type records the would-be layout so that
statements can say which completed result the program cannot produce; no code
path constructs it.  The nonlinearity keys of lines 648-650 are not listed:
they would be added by later assignments inside the dead nonlinearity block. -/
structure NormalizedMetric where
  metric : ℚ
  metric_error : ℚ
  value_model : ℚ
  value_error_model : ℚ
  value_observations : ℚ
  value_error_observations : ℚ
deriving DecidableEq, Repr

/-- Line 629 of ComputeMetric: `val1 = metric_mod['value'] / metric_obs['value']`. -/
def computeMetricVal1 (metric_mod metric_obs : SideResult) :
    Except PyError ℚ :=
  pydiv metric_mod.value metric_obs.value

/-- Line 630 of ComputeMetric:
`val1_err = (v1 * err2 + v2 * err1) / NUMPYsquare(v2)`. -/
def computeMetricVal1Err (metric_mod metric_obs : SideResult) :
    Except PyError ℚ :=
  pydiv
    (metric_mod.value * metric_obs.value_error +
      metric_obs.value * metric_mod.value_error)
    (NUMPYsquare metric_obs.value)

/-- Embeds the normalization step of ComputeMetric (EnsoMetricsLib.py lines
627-650).  Lines 629-630 compute the ratio and its propagated error; any
ZeroDivisionError there propagates.  The `metric_val` dictionary literal of
lines 631-638 then evaluates its entries in order and reaches
`'nyears_model': metric['nyears_model']` (line 634), which indexes the
metric-name string `metric` with a string key: a TypeError in Python.  The
step therefore never returns a result, and the nonlinearity block of lines
639-650 is dead code on every path. -/
def ComputeMetricNormalize (metric_mod metric_obs : SideResult) :
    Except PyError NormalizedMetric := do
  let _val1 ← computeMetricVal1 metric_mod metric_obs
  let _val1_err ← computeMetricVal1Err metric_mod metric_obs
  .error .typeError

/-- The expression of line 646 of ComputeMetric as written,
`val2 = metric_mod['value'] / metric_obs['value']`, which the dead
nonlinearity block would store as `metric_nonlinearity`: it reuses the value
ratio instead of dividing the nonlinearity values (the reassigned v1, v2 of
line 644), on top of being unreachable because of the TypeError at
line 634. -/
def line646Val2 (metric_mod metric_obs : SideResult) : Except PyError ℚ :=
  pydiv metric_mod.value metric_obs.value

/-- External OLS regression kernel `get_slope_linear_regression_from_anomaly`
(a statistics kernel of EnsoToolsLib, a collaborator in the spec): given the
dependent field, the independent field and a sign filter (0 all points, 1
positive anomalies, -1 negative anomalies), it returns the slope and its
standard error.  Its numerics are outside the core, so it is abstracted as a
parameter of the metric functions. -/
structure RegressionKernel where
  slope : List ℚ → List ℚ → Int → ℚ × ℚ

/-- Output dictionary of the two-field regression metric functions (numeric
fields only; name, units, method and ref strings are not modelled). -/
structure TwoFieldMetric where
  value : ℚ
  value_error : ℚ
  nyears : ℕ
  nonlinearity : ℚ
  nonlinearity_error : ℚ
deriving DecidableEq, Repr

/-- EnsoAlphaLhf (EnsoMetricsLib.py lines 23-78), on the already read,
region-selected and unit-checked fields: three regressions of lhf anomalies on
sst anomalies, all/positive/negative, assembled into the output dictionary. -/
def EnsoAlphaLhf (k : RegressionKernel) (sst lhf : List ℚ) : TwoFieldMetric :=
  let s := k.slope lhf sst 0
  let sp := k.slope lhf sst 1
  let sn := k.slope lhf sst (-1)
  { value := s.1, value_error := s.2, nyears := sst.length / 12,
    nonlinearity := sn.1 - sp.1, nonlinearity_error := sn.2 + sp.2 }

/-- EnsoAlphaLwr (lines 81-150); the composite branch (lwr = rlds - rlus) only
changes how the lwr field is built upstream, the regression step is
identical. -/
def EnsoAlphaLwr (k : RegressionKernel) (sst lwr : List ℚ) : TwoFieldMetric :=
  let s := k.slope lwr sst 0
  let sp := k.slope lwr sst 1
  let sn := k.slope lwr sst (-1)
  { value := s.1, value_error := s.2, nyears := sst.length / 12,
    nonlinearity := sn.1 - sp.1, nonlinearity_error := sn.2 + sp.2 }

/-- EnsoAlphaSwr (lines 153-222); composite branch as for EnsoAlphaLwr. -/
def EnsoAlphaSwr (k : RegressionKernel) (sst swr : List ℚ) : TwoFieldMetric :=
  let s := k.slope swr sst 0
  let sp := k.slope swr sst 1
  let sn := k.slope swr sst (-1)
  { value := s.1, value_error := s.2, nyears := sst.length / 12,
    nonlinearity := sn.1 - sp.1, nonlinearity_error := sn.2 + sp.2 }

/-- EnsoAlphaThf (lines 225-309); composite branch (sum of up to four flux
components) as for EnsoAlphaLwr. -/
def EnsoAlphaThf (k : RegressionKernel) (sst thf : List ℚ) : TwoFieldMetric :=
  let s := k.slope thf sst 0
  let sp := k.slope thf sst 1
  let sn := k.slope thf sst (-1)
  { value := s.1, value_error := s.2, nyears := sst.length / 12,
    nonlinearity := sn.1 - sp.1, nonlinearity_error := sn.2 + sp.2 }

/-- Modelled from the spec: ComputeMultiply lives in EnsoToolsLib, which is not
among the given sources; the spec treats unit-conversion numeric kernels as
external collaborators.  As used in EnsoMu, where a (slope, stderr) pair is
multiplied by 1000.0 to express N/m2/C in the declared units 10-3 N/m2/C, it
multiplies both components by the scalar. -/
def ComputeMultiply (p : ℚ × ℚ) (c : ℚ) : ℚ × ℚ := (p.1 * c, p.2 * c)

/-- EnsoMu (lines 363-424).  When the two time axes differ in length the
source calls `MatchTimeDimension(sst, taux)` (line 405); that name is neither
defined in the file nor imported, so in Python the branch raises NameError.
Otherwise the three regressions of taux anomalies on sst anomalies are
computed and every component is scaled by 1000 via ComputeMultiply before the
output dictionary is assembled. -/
def EnsoMu (k : RegressionKernel) (sst taux : List ℚ) :
    Except PyError TwoFieldMetric :=
  if sst.length ≠ taux.length then .error .nameError
  else
    let s := ComputeMultiply (k.slope taux sst 0) 1000
    let sp := ComputeMultiply (k.slope taux sst 1) 1000
    let sn := ComputeMultiply (k.slope taux sst (-1)) 1000
    .ok { value := s.1, value_error := s.2, nyears := sst.length / 12,
          nonlinearity := sn.1 - sp.1, nonlinearity_error := sn.2 + sp.2 }

/-- Output dictionary of EnsoRMSE (numeric fields; `value_error` is None in
the source and not modelled). -/
structure RmseResult where
  value : ℚ
  nyears_model : ℕ
  nyears_obs : ℕ
deriving DecidableEq, Repr

/-- EnsoRMSE (EnsoMetricsLib.py lines 427-488), on the already read and
unit-checked fields.  Time averaging, regridding of the model field onto the
observation grid and the rms computation are collaborator calls, abstracted as
the `rms` parameter.  The year counts are taken before time averaging; the
source computes BOTH `yearN_model` and `yearN_observation` from
`sst_model.shape[0]` (lines 471-472), which this embedding reproduces. -/
def EnsoRMSE (rms : List ℚ → List ℚ → ℚ) (sst_model sst_observation : List ℚ) :
    RmseResult :=
  { value := rms sst_model sst_observation,
    nyears_model := sst_model.length / 12,
    nyears_obs := sst_model.length / 12 }

/-- Per-metric requirement entry of a collection's metrics_list
(EnsoCollectionsLib.py): the variables involved, the per-variable default
region, and the per-variable list of acceptable observation datasets.
Dictionaries are association lists in source order.  The optional regridding,
event-definition, smoothing and metric_computation parameters are not needed
by any claim and are not modelled. -/
structure MetricEntry where
  vars : List String
  regions : List (String × String)
  obs_name : List (String × List String)
deriving DecidableEq, Repr

/-- A metrics collection: its metrics_list and plot_order.  The long_name,
description and common_collection_parameters entries are not modelled. -/
structure Collection where
  metrics_list : List (String × MetricEntry)
  plot_order : List String
deriving DecidableEq, Repr

/-- The ENSO_perf collection (EnsoCollectionsLib.py lines 13-266); entries that
are commented out in the source are omitted. -/
def ENSO_perf : Collection :=
  { metrics_list := [
      ("BiasPrLatRmse",
        { vars := ["pr"], regions := [("pr", "nino3_LatExt")],
          obs_name := [("pr", ["ERA-Interim", "GPCPv2.3"])] }),
      ("BiasPrLonRmse",
        { vars := ["pr"], regions := [("pr", "equatorial_pacific")],
          obs_name := [("pr", ["ERA-Interim", "GPCPv2.3"])] }),
      ("BiasSstLonRmse",
        { vars := ["sst"], regions := [("sst", "equatorial_pacific")],
          obs_name := [("sst", ["ERA-Interim", "HadISST", "Tropflux"])] }),
      ("BiasTauxLonRmse",
        { vars := ["taux"], regions := [("taux", "equatorial_pacific")],
          obs_name := [("taux", ["ERA-Interim", "Tropflux"])] }),
      ("SeasonalPrLatRmse",
        { vars := ["pr"], regions := [("pr", "nino3_LatExt")],
          obs_name := [("pr", ["ERA-Interim", "GPCPv2.3"])] }),
      ("SeasonalPrLonRmse",
        { vars := ["pr"], regions := [("pr", "equatorial_pacific")],
          obs_name := [("pr", ["ERA-Interim", "GPCPv2.3"])] }),
      ("SeasonalSstLonRmse",
        { vars := ["sst"], regions := [("sst", "equatorial_pacific")],
          obs_name := [("sst", ["ERA-Interim", "HadISST", "Tropflux"])] }),
      ("SeasonalTauxLonRmse",
        { vars := ["taux"], regions := [("taux", "equatorial_pacific")],
          obs_name := [("sst", ["ERA-Interim", "Tropflux"])] }),
      ("EnsoAmpl",
        { vars := ["sst"], regions := [("sst", "nino3.4")],
          obs_name := [("sst", ["ERA-Interim", "HadISST", "Tropflux"])] }),
      ("EnsoDuration",
        { vars := ["sst"], regions := [("sst", "nino3.4")],
          obs_name := [("sst", ["ERA-Interim", "HadISST", "Tropflux"])] }),
      ("EnsoSeasonality",
        { vars := ["sst"], regions := [("sst", "nino3.4")],
          obs_name := [("sst", ["ERA-Interim", "HadISST", "Tropflux"])] }),
      ("EnsoSstLonRmse",
        { vars := ["sst"], regions := [("sst", "equatorial_pacific")],
          obs_name := [("sst", ["ERA-Interim", "HadISST", "Tropflux"])] }),
      ("EnsoSstDiversity_2",
        { vars := ["sst"], regions := [("sst", "equatorial_pacific")],
          obs_name := [("sst", ["ERA-Interim", "HadISST", "Tropflux"])] }),
      ("EnsoSstSkew",
        { vars := ["sst"], regions := [("sst", "nino3.4")],
          obs_name := [("sst", ["ERA-Interim", "HadISST", "Tropflux"])] }),
      ("EnsoSstTsRmse",
        { vars := ["sst"], regions := [("sst", "nino3.4")],
          obs_name := [("sst", ["ERA-Interim", "HadISST", "Tropflux"])] })],
    plot_order := [
      "BiasPrLatRmse", "BiasPrLonRmse", "BiasSstLonRmse", "BiasTauxLonRmse",
      "SeasonalPrLatRmse", "SeasonalPrLonRmse", "SeasonalSstLonRmse",
      "SeasonalTauxLonRmse", "EnsoSstLonRmse", "EnsoSstTsRmse", "EnsoAmpl",
      "EnsoSeasonality", "EnsoSstSkew", "EnsodDuration",
      "EnsoSstDiversity_2"] }

/-- The ENSO_tel collection (lines 267-367). -/
def ENSO_tel : Collection :=
  { metrics_list := [
      ("EnsoAmpl",
        { vars := ["sst"], regions := [("sst", "nino3.4")],
          obs_name := [("sst", ["ERA-Interim", "HadISST", "Tropflux"])] }),
      ("EnsoSeasonality",
        { vars := ["sst"], regions := [("sst", "nino3.4")],
          obs_name := [("sst", ["ERA-Interim", "HadISST", "Tropflux"])] }),
      ("EnsoSstLonRmse",
        { vars := ["sst"], regions := [("sst", "equatorial_pacific")],
          obs_name := [("sst", ["ERA-Interim", "HadISST", "Tropflux"])] }),
      ("EnsoPrMapDjf",
        { vars := ["sst", "pr"],
          regions := [("pr", "global"), ("sst", "nino3.4")],
          obs_name := [("pr", ["ERA-Interim", "GPCPv2.3"]),
                       ("sst", ["ERA-Interim", "HadISST", "Tropflux"])] }),
      ("EnsoPrMapJja",
        { vars := ["sst", "pr"],
          regions := [("pr", "global"), ("sst", "nino3.4")],
          obs_name := [("pr", ["ERA-Interim", "GPCPv2.3"]),
                       ("sst", ["ERA-Interim", "HadISST", "Tropflux"])] }),
      ("EnsoSstMapDjf",
        { vars := ["sst"], regions := [("sst", "global")],
          obs_name := [("sst", ["ERA-Interim", "HadISST", "Tropflux"])] }),
      ("EnsoSstMapJja",
        { vars := ["sst"], regions := [("sst", "global")],
          obs_name := [("sst", ["ERA-Interim", "HadISST", "Tropflux"])] })],
    plot_order := [
      "EnsoSstLonRmse", "EnsoAmpl", "EnsoSeasonality", "EnsoPrMapDjfRmse",
      "EnsoPrMapJjaRmse", "EnsoSstMapDjfRmse", "EnsoSstMapJjaRmse"] }

/-- The ENSO_proc collection (lines 368-517). -/
def ENSO_proc : Collection :=
  { metrics_list := [
      ("BiasSstLonRmse",
        { vars := ["sst"], regions := [("sst", "equatorial_pacific")],
          obs_name := [("sst", ["ERA-Interim", "HadISST", "Tropflux"])] }),
      ("BiasTauxLonRmse",
        { vars := ["taux"], regions := [("taux", "equatorial_pacific")],
          obs_name := [("taux", ["ERA-Interim", "Tropflux"])] }),
      ("EnsoAmpl",
        { vars := ["sst"], regions := [("sst", "nino3.4")],
          obs_name := [("sst", ["ERA-Interim", "HadISST", "Tropflux"])] }),
      ("EnsoSstLonRmse",
        { vars := ["sst"], regions := [("sst", "equatorial_pacific")],
          obs_name := [("sst", ["ERA-Interim", "HadISST", "Tropflux"])] }),
      ("EnsoSeasonality",
        { vars := ["sst"], regions := [("sst", "nino3.4")],
          obs_name := [("sst", ["ERA-Interim", "HadISST", "Tropflux"])] }),
      ("EnsoSstSkew",
        { vars := ["sst"], regions := [("sst", "nino3.4")],
          obs_name := [("sst", ["ERA-Interim", "HadISST", "Tropflux"])] }),
      ("EnsodSstOce_2",
        { vars := ["sst", "thf"],
          regions := [("sst", "nino3"), ("thf", "nino3")],
          obs_name := [("sst", ["ERA-Interim", "HadISST", "Tropflux"]),
                       ("thf", ["ERA-Interim", "Tropflux"])] }),
      ("EnsoFbSshSst",
        { vars := ["sst", "ssh"],
          regions := [("sst", "nino3"), ("ssh", "nino3")],
          obs_name := [("sst", ["ERA-Interim", "HadISST", "Tropflux"]),
                       ("ssh", ["AVISO"])] }),
      ("EnsoFbSstTaux",
        { vars := ["sst", "taux"],
          regions := [("sst", "nino3"), ("taux", "nino4")],
          obs_name := [("sst", ["ERA-Interim", "HadISST", "Tropflux"]),
                       ("taux", ["ERA-Interim", "Tropflux"])] }),
      ("EnsoFbSstThf",
        { vars := ["sst", "thf"],
          regions := [("sst", "nino3"), ("thf", "nino3")],
          obs_name := [("sst", ["ERA-Interim", "HadISST", "Tropflux"]),
                       ("thf", ["ERA-Interim", "Tropflux"])] }),
      ("EnsoFbTauxSsh",
        { vars := ["taux", "ssh"],
          regions := [("ssh", "nino3"), ("taux", "nino4")],
          obs_name := [("sst", ["ERA-Interim", "HadISST", "Tropflux"]),
                       ("ssh", ["AVISO"])] })],
    plot_order := [
      "BiasSstLonRmse", "BiasTauxLonRmse", "EnsoSstLonRmse", "EnsoAmpl",
      "EnsoSeasonality", "EnsoSstSkew", "EnsodSstOce_2", "EnsoFbSstThf",
      "EnsoFbSstTaux", "EnsoFbTauxSsh", "EnsoFbSshSst"] }

/-- The all_metrics collection (lines 518-873). -/
def all_metrics : Collection :=
  { metrics_list := [
      ("BiasPrLatRmse",
        { vars := ["pr"], regions := [("pr", "nino3_LatExt")],
          obs_name := [("pr", ["ERA-Interim", "GPCPv2.3"])] }),
      ("BiasPrLonRmse",
        { vars := ["pr"], regions := [("pr", "equatorial_pacific")],
          obs_name := [("pr", ["ERA-Interim", "GPCPv2.3"])] }),
      ("BiasSshLatRmse",
        { vars := ["ssh"], regions := [("ssh", "nino3_LatExt")],
          obs_name := [("ssh", ["AVISO"])] }),
      ("BiasSshLonRmse",
        { vars := ["ssh"], regions := [("ssh", "equatorial_pacific")],
          obs_name := [("ssh", ["AVISO"])] }),
      ("BiasSstLatRmse",
        { vars := ["sst"], regions := [("sst", "nino3_LatExt")],
          obs_name := [("sst", ["ERA-Interim", "HadISST", "Tropflux"])] }),
      ("BiasSstLonRmse",
        { vars := ["sst"], regions := [("sst", "equatorial_pacific")],
          obs_name := [("sst", ["ERA-Interim", "HadISST", "Tropflux"])] }),
      ("BiasTauxLatRmse",
        { vars := ["taux"],
          regions := [("taux", "equatorial_pacific_LatExt")],
          obs_name := [("taux", ["ERA-Interim", "Tropflux"])] }),
      ("BiasTauxLonRmse",
        { vars := ["taux"], regions := [("taux", "equatorial_pacific")],
          obs_name := [("taux", ["ERA-Interim", "Tropflux"])] }),
      ("EnsoAmpl",
        { vars := ["sst"], regions := [("sst", "nino3.4")],
          obs_name := [("sst", ["ERA-Interim", "HadISST", "Tropflux"])] }),
      ("EnsoDuration",
        { vars := ["sst"], regions := [("sst", "nino3.4")],
          obs_name := [("sst", ["ERA-Interim", "HadISST", "Tropflux"])] }),
      ("EnsodSstOce_1",
        { vars := ["sst", "thf"],
          regions := [("sst", "nino3"), ("thf", "nino3")],
          obs_name := [("sst", ["ERA-Interim", "HadISST", "Tropflux"]),
                       ("thf", ["ERA-Interim", "Tropflux"])] }),
      ("EnsodSstOce_2",
        { vars := ["sst", "thf"],
          regions := [("sst", "nino3"), ("thf", "nino3")],
          obs_name := [("sst", ["ERA-Interim", "HadISST", "Tropflux"]),
                       ("thf", ["ERA-Interim", "Tropflux"])] }),
      ("EnsoFbSshSst",
        { vars := ["sst", "ssh"],
          regions := [("sst", "nino3"), ("ssh", "nino3")],
          obs_name := [("sst", ["ERA-Interim", "HadISST", "Tropflux"]),
                       ("ssh", ["AVISO"])] }),
      ("EnsoFbSstLhf",
        { vars := ["sst", "lhf"],
          regions := [("sst", "nino3"), ("lhf", "nino3")],
          obs_name := [("sst", ["ERA-Interim", "HadISST", "Tropflux"]),
                       ("lhf", ["ERA-Interim", "Tropflux"])] }),
      ("EnsoFbSstLwr",
        { vars := ["sst", "lwr"],
          regions := [("sst", "nino3"), ("lwr", "nino3")],
          obs_name := [("sst", ["ERA-Interim", "HadISST", "Tropflux"]),
                       ("lwr", ["ERA-Interim", "Tropflux"])] }),
      ("EnsoFbSstShf",
        { vars := ["sst", "shf"],
          regions := [("sst", "nino3"), ("shf", "nino3")],
          obs_name := [("sst", ["ERA-Interim", "HadISST", "Tropflux"]),
                       ("shf", ["ERA-Interim", "Tropflux"])] }),
      ("EnsoFbSstSwr",
        { vars := ["sst", "swr"],
          regions := [("sst", "nino3"), ("swr", "nino3")],
          obs_name := [("sst", ["ERA-Interim", "HadISST", "Tropflux"]),
                       ("swr", ["ERA-Interim", "Tropflux"])] }),
      ("EnsoFbSstTaux",
        { vars := ["sst", "taux"],
          regions := [("sst", "nino3"), ("taux", "nino4")],
          obs_name := [("sst", ["ERA-Interim", "HadISST", "Tropflux"]),
                       ("taux", ["ERA-Interim", "Tropflux"])] }),
      ("EnsoFbSstThf",
        { vars := ["sst", "thf"],
          regions := [("sst", "nino3"), ("thf", "nino3")],
          obs_name := [("sst", ["ERA-Interim", "HadISST", "Tropflux"]),
                       ("thf", ["ERA-Interim", "Tropflux"])] }),
      ("EnsoFbTauxSsh",
        { vars := ["taux", "ssh"],
          regions := [("ssh", "nino3"), ("taux", "nino4")],
          obs_name := [("sst", ["ERA-Interim", "HadISST", "Tropflux"]),
                       ("ssh", ["AVISO"])] }),
      ("EnsoPrMapDjf",
        { vars := ["sst", "pr"],
          regions := [("pr", "global"), ("sst", "nino3.4")],
          obs_name := [("pr", ["ERA-Interim", "GPCPv2.3"]),
                       ("sst", ["ERA-Interim", "HadISST", "Tropflux"])] }),
      ("EnsoPrMapJja",
        { vars := ["sst", "pr"],
          regions := [("pr", "global"), ("sst", "nino3.4")],
          obs_name := [("pr", ["ERA-Interim", "GPCPv2.3"]),
                       ("sst", ["ERA-Interim", "HadISST", "Tropflux"])] }),
      ("EnsoSeasonality",
        { vars := ["sst"], regions := [("sst", "nino3.4")],
          obs_name := [("sst", ["ERA-Interim", "HadISST", "Tropflux"])] }),
      ("EnsoSlpMapDjf",
        { vars := ["sst", "slp"],
          regions := [("slp", "global"), ("sst", "nino3.4")],
          obs_name := [("slp", ["AVISO"]),
                       ("sst", ["ERA-Interim", "HadISST", "Tropflux"])] }),
      ("EnsoSlpMapJja",
        { vars := ["sst", "slp"],
          regions := [("slp", "global"), ("sst", "nino3.4")],
          obs_name := [("slp", ["AVISO"]),
                       ("sst", ["ERA-Interim", "HadISST", "Tropflux"])] }),
      ("EnsoSstDiversity_1",
        { vars := ["sst"], regions := [("sst", "equatorial_pacific")],
          obs_name := [("sst", ["ERA-Interim", "HadISST", "Tropflux"])] }),
      ("EnsoSstDiversity_2",
        { vars := ["sst"], regions := [("sst", "equatorial_pacific")],
          obs_name := [("sst", ["ERA-Interim", "HadISST", "Tropflux"])] }),
      ("EnsoSstLonRmse",
        { vars := ["sst"], regions := [("sst", "equatorial_pacific")],
          obs_name := [("sst", ["ERA-Interim", "HadISST", "Tropflux"])] }),
      ("EnsoSstMapDjf",
        { vars := ["sst"], regions := [("sst", "global")],
          obs_name := [("sst", ["ERA-Interim", "HadISST", "Tropflux"])] }),
      ("EnsoSstMapJja",
        { vars := ["sst"], regions := [("sst", "global")],
          obs_name := [("sst", ["ERA-Interim", "HadISST", "Tropflux"])] }),
      ("EnsoSstSkew",
        { vars := ["sst"], regions := [("sst", "nino3.4")],
          obs_name := [("sst", ["ERA-Interim", "HadISST", "Tropflux"])] }),
      ("EnsoSstTsRmse",
        { vars := ["sst"], regions := [("sst", "nino3.4")],
          obs_name := [("sst", ["ERA-Interim", "HadISST", "Tropflux"])] }),
      ("SeasonalPrLatRmse",
        { vars := ["pr"], regions := [("pr", "nino3_LatExt")],
          obs_name := [("pr", ["ERA-Interim", "GPCPv2.3"])] }),
      ("SeasonalPrLonRmse",
        { vars := ["pr"], regions := [("pr", "equatorial_pacific")],
          obs_name := [("pr", ["ERA-Interim", "GPCPv2.3"])] }),
      ("SeasonalSshLatRmse",
        { vars := ["ssh"], regions := [("ssh", "nino3_LatExt")],
          obs_name := [("ssh", ["AVISO"])] }),
      ("SeasonalSshLonRmse",
        { vars := ["ssh"], regions := [("ssh", "equatorial_pacific")],
          obs_name := [("ssh", ["AVISO"])] }),
      ("SeasonalSstLatRmse",
        { vars := ["sst"], regions := [("sst", "nino3_LatExt")],
          obs_name := [("sst", ["ERA-Interim", "HadISST", "Tropflux"])] }),
      ("SeasonalSstLonRmse",
        { vars := ["sst"], regions := [("sst", "equatorial_pacific")],
          obs_name := [("sst", ["ERA-Interim", "HadISST", "Tropflux"])] }),
      ("SeasonalTauxLatRmse",
        { vars := ["taux"],
          regions := [("taux", "equatorial_pacific_LatExt")],
          obs_name := [("taux", ["ERA-Interim", "Tropflux"])] }),
      ("SeasonalTauxLonRmse",
        { vars := ["taux"], regions := [("taux", "equatorial_pacific")],
          obs_name := [("sst", ["ERA-Interim", "Tropflux"])] })],
    plot_order := [
      "BiasPrLatRmse", "BiasPrLonRmse", "BiasSstLonRmse", "BiasTauxLonRmse",
      "SeasonalPrLatRmse", "SeasonalPrLonRmse", "SeasonalSstLonRmse",
      "SeasonalTauxLonRmse", "EnsoSstLonRmse", "EnsoSstTsRmse", "EnsoAmpl",
      "EnsoSeasonality", "EnsoSstSkew", "EnsodDuration",
      "EnsoSstDiversity_2"] }

/-- The ENSO_THF collection (lines 874-930). -/
def ENSO_THF : Collection :=
  { metrics_list := [
      ("EnsoFbSstLhf",
        { vars := ["sst", "lhf"],
          regions := [("sst", "nino3"), ("lhf", "nino3")],
          obs_name := [("sst", ["ERA-Interim", "HadISST", "Tropflux"]),
                       ("lhf", ["ERA-Interim", "Tropflux"])] }),
      ("EnsoFbSstLwr",
        { vars := ["sst", "lwr"],
          regions := [("sst", "nino3"), ("lwr", "nino3")],
          obs_name := [("sst", ["ERA-Interim", "HadISST", "Tropflux"]),
                       ("lwr", ["ERA-Interim", "Tropflux"])] }),
      ("EnsoFbSstShf",
        { vars := ["sst", "shf"],
          regions := [("sst", "nino3"), ("shf", "nino3")],
          obs_name := [("sst", ["ERA-Interim", "HadISST", "Tropflux"]),
                       ("shf", ["ERA-Interim", "Tropflux"])] }),
      ("EnsoFbSstSwr",
        { vars := ["sst", "swr"],
          regions := [("sst", "nino3"), ("swr", "nino3")],
          obs_name := [("sst", ["ERA-Interim", "HadISST", "Tropflux"]),
                       ("swr", ["ERA-Interim", "Tropflux"])] }),
      ("EnsoFbSstThf",
        { vars := ["sst", "thf"],
          regions := [("sst", "nino3"), ("thf", "nino3")],
          obs_name := [("sst", ["ERA-Interim", "HadISST", "Tropflux"]),
                       ("thf", ["ERA-Interim", "Tropflux"])] })],
    plot_order := ["EnsoFbSstThf"] }

/-- The ENSO_tau collection (lines 931-1033). -/
def ENSO_tau : Collection :=
  { metrics_list := [
      ("BiasMldLonRmse",
        { vars := ["mld"], regions := [("mld", "equatorial_pacific")],
          obs_name := [("mld", ["Boyer", "Sallee"])] }),
      ("BiasTauxLonRmse",
        { vars := ["taux"], regions := [("taux", "equatorial_pacific")],
          obs_name := [("taux", ["ERA-Interim", "Tropflux"])] }),
      ("BiasTauyLonRmse",
        { vars := ["tauy"], regions := [("tauy", "equatorial_pacific")],
          obs_name := [("tauy", ["ERA-Interim", "Tropflux"])] }),
      ("EnsoMldLonRmse",
        { vars := ["sst", "mld"],
          regions := [("sst", "equatorial_pacific"),
                      ("mld", "equatorial_pacific")],
          obs_name := [("sst", ["ERA-Interim", "HadISST", "Tropflux"]),
                       ("mld", ["Boyer", "Sallee"])] }),
      ("EnsoMldTsRmse",
        { vars := ["sst", "mld"],
          regions := [("sst", "nino3.4"), ("mld", "nino4")],
          obs_name := [("sst", ["ERA-Interim", "HadISST", "Tropflux"]),
                       ("mld", ["Boyer", "Sallee"])] }),
      ("EnsoTauxLonRmse",
        { vars := ["sst", "taux"],
          regions := [("sst", "equatorial_pacific"),
                      ("taux", "equatorial_pacific")],
          obs_name := [("sst", ["ERA-Interim", "HadISST", "Tropflux"]),
                       ("taux", ["ERA-Interim", "Tropflux"])] }),
      ("EnsoTauxTsRmse",
        { vars := ["sst", "taux"],
          regions := [("sst", "nino3.4"), ("taux", "nino4")],
          obs_name := [("sst", ["ERA-Interim", "HadISST", "Tropflux"]),
                       ("taux", ["ERA-Interim", "Tropflux"])] }),
      ("EnsoTauyLonRmse",
        { vars := ["sst", "tauy"],
          regions := [("sst", "equatorial_pacific"),
                      ("tauy", "equatorial_pacific")],
          obs_name := [("sst", ["ERA-Interim", "HadISST", "Tropflux"]),
                       ("tauy", ["ERA-Interim", "Tropflux"])] }),
      ("EnsoTauyTsRmse",
        { vars := ["sst", "tauy"],
          regions := [("sst", "nino3.4"), ("tauy", "nino4")],
          obs_name := [("sst", ["ERA-Interim", "HadISST", "Tropflux"]),
                       ("tauy", ["ERA-Interim", "Tropflux"])] })],
    plot_order := [
      "BiasMldLonRmse", "BiasTauxLonRmse", "BiasTauyLonRmse",
      "EnsoMldLonRmse", "EnsoMldTsRmse", "EnsoTauxLonRmse", "EnsoTauxTsRmse",
      "EnsoTauyLonRmse", "EnsoTauyTsRmse"] }

/-- defCollection (EnsoCollectionsLib.py lines 10-1038): the registry of the
six metrics collections, in source order. -/
def defCollection : List (String × Collection) :=
  [("ENSO_perf", ENSO_perf), ("ENSO_tel", ENSO_tel), ("ENSO_proc", ENSO_proc),
   ("all_metrics", all_metrics), ("ENSO_THF", ENSO_THF),
   ("ENSO_tau", ENSO_tau)]

/-- The dataset identifiers of ReferenceObservations (EnsoCollectionsLib.py
lines 1042-1350), in source order.  Only the keys are modelled: the claims
about this catalog concern lookup failure, not the per-dataset payload. -/
def ReferenceObservations_ids : List String :=
  ["20CRv2c", "20CRv3", "AVISO", "CERA-20C", "CFSR", "CMAP", "ERA-Interim",
   "ERA5", "ERSSTv5", "ESA-CCI-SST-v2-1", "GPCP-Monthly-3-2", "HadISST",
   "JRA-55-mdl-iso", "MERRA", "MERRA2", "NCEP2", "Tropflux"]

/-- The region identifiers of ReferenceRegions (EnsoCollectionsLib.py lines
1353-1465), in source order; commented-out regions are omitted.  Only the keys
are modelled, as for ReferenceObservations_ids. -/
def ReferenceRegions_ids : List String :=
  ["global", "global2", "tropical_pacific", "equatorial_pacific",
   "equatorial_pacific_LatExt", "equatorial_pacific_LatExt2",
   "eastern_equatorial_pacific", "western_equatorial_pacific", "nino1+2",
   "nino3", "nino3_LatExt", "nino3.4", "nino4", "ALA", "CAS", "CGI", "CNA",
   "EAF", "EAS", "ENA", "MED", "NAS", "NAU", "NEB", "SAF", "SAH", "SAU",
   "SEA", "TIB", "WAF", "WAS", "WNA", "ANT", "ARC", "NTP", "STP", "ETP",
   "WIO", "CEP", "CNP", "CSP", "INO", "africaSE", "americaN", "americaS",
   "asiaS", "oceania"]

/-- ReferenceRegions(region) for a string argument: the source returns
`dict_reference_regions[region]`, a plain dictionary access, so an unknown
identifier raises KeyError carrying that identifier. -/
def ReferenceRegions (region : String) : Except PyError Unit :=
  if region ∈ ReferenceRegions_ids then .ok () else .error (.keyError region)

/-- ReferenceObservations(dataset) for a string argument: the source returns
`dict_ref_obs[dataset]`, so an unknown identifier raises KeyError. -/
def ReferenceObservations (dataset : String) : Except PyError Unit :=
  if dataset ∈ ReferenceObservations_ids then .ok ()
  else .error (.keyError dataset)

/-- defCollection(mc) for a string argument: the source returns
`metrics_collection[mc]`, so an unknown identifier raises KeyError. -/
def defCollectionLookup (mc : String) : Except PyError Collection :=
  match List.lookup mc defCollection with
  | some c => .ok c
  | none => .error (.keyError mc)

/-- The top-level keys of every collection dictionary literal in
defCollection: each of the six collections has exactly these five keys. -/
def collectionTopKeys : List String :=
  ["long_name", "metrics_list", "common_collection_parameters", "plot_order",
   "description"]

/-- Embeds line 604 of ComputeMetric, the region-resolution prelude:
`defCollection(MetricCollection)['dict_of_regions'][metric]`.  The collection
dictionary is first fetched, then indexed with the literal key
'dict_of_regions'; since no collection has that key (per-metric region
defaults actually live under `metrics_list[metric]['regions']`), the access
is a KeyError whenever the collection lookup succeeds. -/
def computeMetricRegionLookup (MetricCollection _metric : String) :
    Except PyError Unit := do
  let _c ← defCollectionLookup MetricCollection
  if "dict_of_regions" ∈ collectionTopKeys then .ok ()
  else .error (.keyError "dict_of_regions")

/-- Decides whether a metrics_list entry provides a non-empty obs_name list
for every variable it declares. -/
def metricObsComplete (e : MetricEntry) : Bool :=
  e.vars.all fun v =>
    match List.lookup v e.obs_name with
    | some l => !l.isEmpty
    | none => false

/-- Decides whether every identifier in a collection's plot_order is a key of
its metrics_list. -/
def plotOrderConsistent (c : Collection) : Bool :=
  c.plot_order.all fun m => (List.lookup m c.metrics_list).isSome

/-! Concrete probe data used by witnesses and counterexamples. -/

/-- A concrete regression kernel whose three filtered regressions are
distinguishable: filter i yields slope i + 2 and standard error i + 5, so
all points give (2, 5), positive (3, 6), negative (1, 4). -/
def kDemo : RegressionKernel := ⟨fun _ _ i => ((i : ℚ) + 2, (i : ℚ) + 5)⟩

/-- A concrete regression kernel that reports the time-axis lengths of the
two fields it actually received, as (slope, stderr). -/
def kProbe : RegressionKernel :=
  ⟨fun x y _ => ((x.length : ℚ), (y.length : ℚ))⟩

/-- A 12-month zero time series. -/
def sstDemo : List ℚ := List.replicate 12 0

/-- A 24-month zero time series. -/
def sstLong : List ℚ := List.replicate 24 0

/-- A 12-month zero time series for the flux side. -/
def lhfShort : List ℚ := List.replicate 12 0

/-- Claim C1 fails as stated: at the claim's own instance (value_model 2.0,
err_model 0.1, value_obs 1.0, err_obs 0.05) the normalization step raises
TypeError while assembling the result dictionary (line 634 indexes the
metric-name string), so ComputeMetric never produces the asserted
metric = 2.0 / metric_error = 0.2 result. -/
theorem computeMetric_ratio_cex :
    ComputeMetricNormalize ⟨2, 1/10, none⟩ ⟨1, 1/20, none⟩ =
      .error .typeError ∧
    (Except.error PyError.typeError : Except PyError NormalizedMetric) ≠
      .ok { metric := 2, metric_error := 1/5, value_model := 2,
            value_error_model := 1/10, value_observations := 1,
            value_error_observations := 1/20 } := by
  refine ⟨?_, fun h => Except.noConfusion h⟩
  norm_num [ComputeMetricNormalize, computeMetricVal1, computeMetricVal1Err,
    pydiv, NUMPYsquare, Bind.bind, Except.bind]

/-- Claim C1 as amended: lines 629-630 do compute
val1 = value_model / value_obs and
val1_err = (value_model * err_obs + value_obs * err_model) / value_obs^2
(2.0 and 0.2 at the claim's instance), but the result-dictionary assembly of
line 634 then raises TypeError, so the normalization never completes and no
MetricResult carrying those values is returned. -/
theorem computeMetric_ratio_formula_then_typeerror :
    (∀ m o, o.value ≠ 0 →
        computeMetricVal1 m o = .ok (m.value / o.value) ∧
        computeMetricVal1Err m o =
          .ok ((m.value * o.value_error + o.value * m.value_error) /
            NUMPYsquare o.value) ∧
        ComputeMetricNormalize m o = .error .typeError) ∧
    (computeMetricVal1 ⟨2, 1/10, none⟩ ⟨1, 1/20, none⟩ = .ok 2 ∧
     computeMetricVal1Err ⟨2, 1/10, none⟩ ⟨1, 1/20, none⟩ = .ok (1/5)) := by
  constructor
  · intro m o hv
    refine ⟨?_, ?_, ?_⟩
    · simp only [computeMetricVal1, pydiv, hv, if_false]
    · simp only [computeMetricVal1Err, pydiv, NUMPYsquare]
      rw [if_neg (mul_ne_zero hv hv)]
    · simp [ComputeMetricNormalize, computeMetricVal1, computeMetricVal1Err,
        pydiv, NUMPYsquare, Bind.bind, Except.bind, hv, mul_ne_zero hv hv]
  · constructor <;>
      norm_num [computeMetricVal1, computeMetricVal1Err, pydiv, NUMPYsquare]

/-- Witness for the amended C1, at the claim's concrete instance. -/
theorem computeMetric_ratio_formula_then_typeerror_witness :
    computeMetricVal1 ⟨2, 1/10, none⟩ ⟨1, 1/20, none⟩ = .ok ((2 : ℚ) / 1) ∧
    computeMetricVal1Err ⟨2, 1/10, none⟩ ⟨1, 1/20, none⟩ =
      .ok (((2 : ℚ) * (1/20) + 1 * (1/10)) / NUMPYsquare 1) ∧
    ComputeMetricNormalize ⟨2, 1/10, none⟩ ⟨1, 1/20, none⟩ =
      .error .typeError :=
  computeMetric_ratio_formula_then_typeerror.1 ⟨2, 1/10, none⟩
    ⟨1, 1/20, none⟩ (by norm_num)

/-- Claim C2 (code bug): the program never reports any metric_nonlinearity at
all — the TypeError at line 634 precedes the nonlinearity block (lines
639-650) on every path, making it dead code — and that block's line 646, as
written, would store the value ratio (2.0 at the failing input), not the
nonlinearity ratio nonlinearity_model / nonlinearity_obs (0.5). -/
theorem computeMetric_nonlinearity_never_reported :
    ComputeMetricNormalize ⟨2, 1/10, some (1/2, 1/10)⟩
        ⟨1, 1/20, some (1, 1/20)⟩ = .error .typeError ∧
    line646Val2 ⟨2, 1/10, some (1/2, 1/10)⟩ ⟨1, 1/20, some (1, 1/20)⟩ =
      .ok 2 ∧
    (2 : ℚ) ≠ (1/2) / 1 := by
  refine ⟨?_, ?_, by norm_num⟩
  · norm_num [ComputeMetricNormalize, computeMetricVal1, computeMetricVal1Err,
      pydiv, NUMPYsquare, Bind.bind, Except.bind]
  · norm_num [line646Val2, pydiv]

/-- Claim C3 is corrected by this counterexample: a zero observation-side
value makes line 629 raise ZeroDivisionError, and with a zero
observation-side nonlinearity (observation value nonzero) the step raises
TypeError at line 634 before the nonlinearity division of line 647 is ever
reached; in neither case is the NumericError the claim names raised (no such
class exists in the sources). -/
theorem computeMetric_zero_obs_no_numeric_error :
    ComputeMetricNormalize ⟨2, 1/10, none⟩ ⟨0, 1/20, none⟩ =
      .error .zeroDivisionError ∧
    ComputeMetricNormalize ⟨2, 1/10, some (1/2, 1/10)⟩
        ⟨3, 1/20, some (0, 1/20)⟩ = .error .typeError ∧
    PyError.zeroDivisionError ≠ PyError.numericError ∧
    PyError.typeError ≠ PyError.numericError := by
  refine ⟨?_, ?_, by decide, by decide⟩
  · norm_num [ComputeMetricNormalize, computeMetricVal1, computeMetricVal1Err,
      pydiv, NUMPYsquare, Bind.bind, Except.bind]
  · norm_num [ComputeMetricNormalize, computeMetricVal1, computeMetricVal1Err,
      pydiv, NUMPYsquare, Bind.bind, Except.bind]

/-- Claim C3 as amended: a zero observation value makes line 629's unguarded
division raise ZeroDivisionError (with numpy operands it would instead be a
silently non-finite value); on every other input the step raises TypeError at
line 634, before the nonlinearity-channel division of line 647 — which is
dead code — so a zero observation-side nonlinearity never reaches a division
at all.  No NumericError is raised anywhere (the class does not exist in the
sources). -/
theorem computeMetric_zero_obs_division :
    (∀ m o, o.value = 0 →
        ComputeMetricNormalize m o = .error .zeroDivisionError) ∧
    (∀ m o, o.value ≠ 0 → ComputeMetricNormalize m o = .error .typeError) := by
  constructor
  · rintro ⟨v1, e1, nl1⟩ ⟨v2, e2, nlo⟩ h
    dsimp only at h
    subst h
    simp [ComputeMetricNormalize, computeMetricVal1, pydiv, Bind.bind,
      Except.bind]
  · rintro ⟨v1, e1, nl1⟩ ⟨v2, e2, nlo⟩ hv
    dsimp only at hv
    simp [ComputeMetricNormalize, computeMetricVal1, computeMetricVal1Err,
      pydiv, NUMPYsquare, Bind.bind, Except.bind, hv, mul_ne_zero hv hv]

/-- Witness for the amended C3, at the inputs of the counterexample. -/
theorem computeMetric_zero_obs_division_witness :
    ComputeMetricNormalize ⟨2, 1/10, none⟩ ⟨0, 1/20, none⟩ =
      .error .zeroDivisionError ∧
    ComputeMetricNormalize ⟨2, 1/10, some (1/2, 1/10)⟩
        ⟨3, 1/20, some (0, 1/20)⟩ = .error .typeError :=
  ⟨computeMetric_zero_obs_division.1 ⟨2, 1/10, none⟩ ⟨0, 1/20, none⟩ rfl,
   computeMetric_zero_obs_division.2 ⟨2, 1/10, some (1/2, 1/10)⟩
     ⟨3, 1/20, some (0, 1/20)⟩ (by norm_num)⟩

/-- Claim C4 fails as stated: EnsoMu does not return the raw all-points slope
but that slope multiplied by 1000.  With kDemo the all-points slope is 2 while
the returned value is 2000. -/
theorem twoField_slope_assembly_cex :
    EnsoMu kDemo sstDemo sstDemo =
      .ok { value := 2000, value_error := 5000, nyears := 1,
            nonlinearity := -2000, nonlinearity_error := 10000 } ∧
    (kDemo.slope sstDemo sstDemo 0).1 = 2 ∧ (2000 : ℚ) ≠ 2 := by
  refine ⟨?_, by norm_num [kDemo], by norm_num⟩
  norm_num [EnsoMu, ComputeMultiply, kDemo, sstDemo]

/-- Claim C4 as amended: the four alpha functions return exactly
(allSlope, allStderr, years, negSlope - posSlope, negStderr + posStderr),
while EnsoMu returns each of those four quantities multiplied by 1000
(converting N/m2/C into its declared units 10-3 N/m2/C). -/
theorem twoField_slope_assembly :
    (∀ k (sst b : List ℚ),
        EnsoAlphaLhf k sst b =
          { value := (k.slope b sst 0).1, value_error := (k.slope b sst 0).2,
            nyears := sst.length / 12,
            nonlinearity := (k.slope b sst (-1)).1 - (k.slope b sst 1).1,
            nonlinearity_error :=
              (k.slope b sst (-1)).2 + (k.slope b sst 1).2 } ∧
        EnsoAlphaLwr k sst b = EnsoAlphaLhf k sst b ∧
        EnsoAlphaSwr k sst b = EnsoAlphaLhf k sst b ∧
        EnsoAlphaThf k sst b = EnsoAlphaLhf k sst b) ∧
    (∀ k (sst taux : List ℚ), sst.length = taux.length →
        EnsoMu k sst taux =
          .ok { value := 1000 * (k.slope taux sst 0).1,
                value_error := 1000 * (k.slope taux sst 0).2,
                nyears := sst.length / 12,
                nonlinearity :=
                  1000 * ((k.slope taux sst (-1)).1 - (k.slope taux sst 1).1),
                nonlinearity_error :=
                  1000 *
                    ((k.slope taux sst (-1)).2 + (k.slope taux sst 1).2) }) := by
  constructor
  · exact fun k sst b => ⟨rfl, rfl, rfl, rfl⟩
  · intro k sst taux h
    rw [EnsoMu, if_neg (by simp [h])]
    simp only [ComputeMultiply, Except.ok.injEq, TwoFieldMetric.mk.injEq]
    refine ⟨by ring, by ring, trivial, by ring, by ring⟩

/-- Witness for the amended C4, instantiating the EnsoMu conjunct (the one
with a hypothesis) at kDemo on two equal-length series. -/
theorem twoField_slope_assembly_witness :
    EnsoMu kDemo sstDemo sstDemo =
      .ok { value := 1000 * (kDemo.slope sstDemo sstDemo 0).1,
            value_error := 1000 * (kDemo.slope sstDemo sstDemo 0).2,
            nyears := sstDemo.length / 12,
            nonlinearity :=
              1000 * ((kDemo.slope sstDemo sstDemo (-1)).1 -
                (kDemo.slope sstDemo sstDemo 1).1),
            nonlinearity_error :=
              1000 * ((kDemo.slope sstDemo sstDemo (-1)).2 +
                (kDemo.slope sstDemo sstDemo 1).2) } :=
  twoField_slope_assembly.2 kDemo sstDemo sstDemo rfl

/-- Claim C5 fails as stated: on mismatched time-axis lengths (24 vs 12
months) EnsoAlphaLhf performs the regression on the unaligned inputs and
returns normally; the probe kernel records the lengths it received (12 and 24)
in the result, so no alignment happened and no error was raised; EnsoMu, the
only function that checks lengths, raises NameError (`MatchTimeDimension` is
undefined), not DataAlignmentError. -/
theorem twoField_alignment_cex :
    sstLong.length ≠ lhfShort.length ∧
    EnsoAlphaLhf kProbe sstLong lhfShort =
      { value := 12, value_error := 24, nyears := 2, nonlinearity := 0,
        nonlinearity_error := 48 } ∧
    EnsoMu kProbe sstLong lhfShort = .error .nameError ∧
    PyError.nameError ≠ PyError.dataAlignmentError := by
  refine ⟨by decide, ?_, ?_, by decide⟩
  · norm_num [EnsoAlphaLhf, kProbe, sstLong, lhfShort]
  · rw [EnsoMu, if_pos (by decide)]

/-- Claim C5 as amended: only EnsoMu tests for a time-axis mismatch, and its
remedial branch raises NameError because MatchTimeDimension is neither defined
nor imported; the four alpha functions hand the unmodified, unaligned fields
to the regression kernel and return normally.  No DataAlignmentError is raised
anywhere. -/
theorem twoField_alignment :
    (∀ k (sst taux : List ℚ), sst.length ≠ taux.length →
        EnsoMu k sst taux = .error .nameError) ∧
    (∀ k (sst b : List ℚ), sst.length ≠ b.length →
        EnsoAlphaLhf k sst b =
          { value := (k.slope b sst 0).1, value_error := (k.slope b sst 0).2,
            nyears := sst.length / 12,
            nonlinearity := (k.slope b sst (-1)).1 - (k.slope b sst 1).1,
            nonlinearity_error :=
              (k.slope b sst (-1)).2 + (k.slope b sst 1).2 } ∧
        EnsoAlphaLwr k sst b = EnsoAlphaLhf k sst b ∧
        EnsoAlphaSwr k sst b = EnsoAlphaLhf k sst b ∧
        EnsoAlphaThf k sst b = EnsoAlphaLhf k sst b) := by
  constructor
  · intro k sst taux h
    rw [EnsoMu, if_pos h]
  · exact fun k sst b _ => ⟨rfl, rfl, rfl, rfl⟩

/-- Witness for the amended C5 at the concrete mismatched series. -/
theorem twoField_alignment_witness :
    EnsoMu kProbe sstLong lhfShort = .error .nameError ∧
    EnsoAlphaLwr kProbe sstLong lhfShort =
      EnsoAlphaLhf kProbe sstLong lhfShort :=
  ⟨twoField_alignment.1 kProbe sstLong lhfShort (by decide),
   (twoField_alignment.2 kProbe sstLong lhfShort (by decide)).2.1⟩

/-- Claim C6 (code bug): ComputeMetric's region resolution indexes the
collection dictionary with 'dict_of_regions', a key no collection of
defCollection has, so the call raises KeyError before any override/default
precedence can apply. -/
theorem computeMetric_region_lookup_keyerror :
    computeMetricRegionLookup "ENSO_perf" "EnsoAmpl" =
      .error (.keyError "dict_of_regions") ∧
    "dict_of_regions" ∉ collectionTopKeys := ⟨rfl, by decide⟩

/-- Claim C7 (code bug): EnsoRMSE computes nyears_obs from the model series
(line 472 reuses sst_model.shape[0]).  With a 24-month model series and a
36-month observation series it reports 2 observation years instead of 3. -/
theorem ensoRMSE_nyears_obs_from_model :
    (EnsoRMSE (fun _ _ => 0) (List.replicate 24 0)
        (List.replicate 36 0)).nyears_obs = 2 ∧
    (List.replicate 36 (0 : ℚ)).length / 12 = 3 ∧ (2 : ℕ) ≠ 3 :=
  ⟨rfl, rfl, by decide⟩

/-- Claim C8 (code bug): the SeasonalTauxLonRmse entries of ENSO_perf and
all_metrics declare the variable 'taux' but key their obs_name dictionary
with 'sst', and the EnsoFbTauxSsh entry of ENSO_proc declares
['taux', 'ssh'] but keys obs_name with 'sst' and 'ssh', so these metrics
provide no observation list for 'taux'. -/
theorem obs_name_missing_taux :
    (List.lookup "SeasonalTauxLonRmse" ENSO_perf.metrics_list).map
        MetricEntry.vars = some ["taux"] ∧
    (List.lookup "SeasonalTauxLonRmse" ENSO_perf.metrics_list).map
        (fun e => List.lookup "taux" e.obs_name) = some none ∧
    (List.lookup "SeasonalTauxLonRmse" ENSO_perf.metrics_list).map
        metricObsComplete = some false ∧
    (List.lookup "EnsoFbTauxSsh" ENSO_proc.metrics_list).map
        metricObsComplete = some false ∧
    (List.lookup "SeasonalTauxLonRmse" all_metrics.metrics_list).map
        metricObsComplete = some false :=
  ⟨rfl, rfl, rfl, rfl, rfl⟩

/-- Claim C9 fails as stated: an absent identifier makes ReferenceRegions,
ReferenceObservations and defCollection raise Python's builtin KeyError
(which does carry the offending identifier), not a ConfigurationError; no
ConfigurationError class exists in the sources. -/
theorem lookup_unknown_id_keyerror_cex :
    ReferenceRegions "nino5" = .error (.keyError "nino5") ∧
    ReferenceObservations "ERA6" = .error (.keyError "ERA6") ∧
    defCollectionLookup "ENSO_missing" = .error (.keyError "ENSO_missing") ∧
    PyError.keyError "nino5" ≠ PyError.configurationError :=
  ⟨rfl, rfl, rfl, by decide⟩

/-- Claim C9 as amended: every lookup with an identifier absent from the
respective catalog fails with KeyError surfacing that identifier. -/
theorem lookup_unknown_id_keyerror :
    (∀ r, r ∉ ReferenceRegions_ids →
        ReferenceRegions r = .error (.keyError r)) ∧
    (∀ d, d ∉ ReferenceObservations_ids →
        ReferenceObservations d = .error (.keyError d)) ∧
    (∀ mc, List.lookup mc defCollection = none →
        defCollectionLookup mc = .error (.keyError mc)) := by
  refine ⟨fun r h => ?_, fun d h => ?_, fun mc h => ?_⟩
  · rw [ReferenceRegions, if_neg h]
  · rw [ReferenceObservations, if_neg h]
  · rw [defCollectionLookup, h]

/-- Witness for the amended C9 at concrete unknown identifiers. -/
theorem lookup_unknown_id_keyerror_witness :
    ReferenceRegions "nino17" = .error (.keyError "nino17") ∧
    ReferenceObservations "ERA99" = .error (.keyError "ERA99") ∧
    defCollectionLookup "ENSO_none" = .error (.keyError "ENSO_none") :=
  ⟨lookup_unknown_id_keyerror.1 "nino17" (by decide),
   lookup_unknown_id_keyerror.2.1 "ERA99" (by decide),
   lookup_unknown_id_keyerror.2.2 "ENSO_none" rfl⟩

/-- Claim C10 (code bug): the plot_order of ENSO_perf (and of all_metrics)
lists 'EnsodDuration' while its metrics_list key is 'EnsoDuration', and the
plot_order of ENSO_tel lists 'EnsoPrMapDjfRmse' while its metrics_list key is
'EnsoPrMapDjf', so those plot_order identifiers are not metrics_list keys. -/
theorem plot_order_unknown_metric :
    "EnsodDuration" ∈ ENSO_perf.plot_order ∧
    List.lookup "EnsodDuration" ENSO_perf.metrics_list = none ∧
    (List.lookup "EnsoDuration" ENSO_perf.metrics_list).isSome = true ∧
    plotOrderConsistent ENSO_perf = false ∧
    "EnsoPrMapDjfRmse" ∈ ENSO_tel.plot_order ∧
    List.lookup "EnsoPrMapDjfRmse" ENSO_tel.metrics_list = none ∧
    plotOrderConsistent ENSO_tel = false ∧
    plotOrderConsistent all_metrics = false :=
  ⟨by decide, rfl, rfl, rfl, by decide, rfl, rfl, rfl⟩

end Enso
